import Mathlib

set_option maxRecDepth 4000

deriving instance DecidableEq for Except

/-!
Verification of the GYmnastic workout logger core (src/Main.py).

Shallow embedding of the metrics-derivation and persistence logic of the
workout logger. Numeric columns are modelled as exact rationals; the
IEEE-float outcomes that matter to the program (NaN from `0/0`, ±infinity
from division by zero, NaN from `pct_change` at the first row of a group)
are modelled explicitly by `FloatVal`. Fallible operations (the GitHub
fetch, `pd.to_datetime`, the `pd.DataFrame` constructor of the submission
block) are modelled with `Except`.
-/

/-- Outcome of a float computation as numpy/pandas produce it:
either an exact finite value (rational here), one of the two infinities,
or the not-a-number sentinel. -/
inductive FloatVal where
  | nan : FloatVal
  | inf : FloatVal
  | ninf : FloatVal
  | fin : ℚ → FloatVal
deriving DecidableEq

/-- Float division with both operands finite, as numpy/pandas perform it:
division by zero yields NaN when the numerator is also zero and ±infinity
otherwise; no exception is ever raised. -/
def fdiv (x y : ℚ) : FloatVal :=
  if y = 0 then
    if x = 0 then FloatVal.nan
    else if 0 < x then FloatVal.inf
    else FloatVal.ninf
  else FloatVal.fin (x / y)

/-- Multiplication of a float outcome by the positive constant 100,
as in `pct_change() * 100` (src/Main.py line 82). -/
def fmul100 : FloatVal → FloatVal
  | FloatVal.nan => FloatVal.nan
  | FloatVal.inf => FloatVal.inf
  | FloatVal.ninf => FloatVal.ninf
  | FloatVal.fin q => FloatVal.fin (100 * q)

/-- One raw workout row of the dataframe, with the columns
`Fecha, Ejercicio, Peso (kg), Repeticiones, RPE, Notas`. A date is encoded
as an integer day number (chronological order is preserved by the
encoding); `fecha = none` models a NaT (not-a-time) date cell. -/
structure Entry where
  fecha : Option ℤ
  ejercicio : String
  peso : ℚ
  repeticiones : ℚ
  rpe : ℚ
  notas : String
deriving DecidableEq, Inhabited

/-- The four derived columns added by `calcular_metricas`
(`Volumen`, `1RM`, `Intensidad`, `Progreso`). -/
structure Derived where
  volumen : ℚ
  oneRM : ℚ
  intensidad : FloatVal
  progreso : FloatVal
deriving DecidableEq

/-- One dataframe row: the raw columns plus, when present, the four
derived columns. A freshly loaded frame has `derived = none`. -/
structure Row where
  entry : Entry
  derived : Option Derived
deriving DecidableEq, Inhabited

/-- Epley estimated one-rep max:
`df['Peso (kg)'] * (1 + df['Repeticiones']/30)` (src/Main.py line 80). -/
def epley (e : Entry) : ℚ := e.peso * (1 + e.repeticiones / 30)

/-- Maximum of `Peso (kg)` over the rows whose `Ejercicio` equals `k`:
the value `df.groupby('Ejercicio')['Peso (kg)'].transform('max')`
broadcasts to every row of that group (src/Main.py line 81). The default 0
is never reached at a use site, since the group of a row contains the row. -/
def groupMax (es : List Entry) (k : String) : ℚ :=
  (((es.filter (fun e => e.ejercicio = k)).map Entry.peso).max?).getD 0

/-- The index of the previous row of the same group in original row order:
`groupby(...).pct_change()` partitions the rows by key, keeps the original
order inside each group, and takes each row's predecessor inside its group;
the first row of each group has none and receives NaN. -/
def prevSameIdx (keys : List String) (i : ℕ) : Option ℕ :=
  ((List.range i).filter (fun j => keys.getD j "" = keys.getD i "")).getLast?

/-- The `Progreso` value of row `i`:
`df.groupby('Ejercicio')['1RM'].pct_change() * 100` (src/Main.py line 82),
with `pct_change` being `(current - previous) / previous` against the
predecessor of row `i` inside its exercise group, in original row order. -/
def progresoAt (es : List Entry) (i : ℕ) : FloatVal :=
  match prevSameIdx (es.map Entry.ejercicio) i with
  | none => FloatVal.nan
  | some j =>
      fmul100 (fdiv (epley (es.getD i default) - epley (es.getD j default))
        (epley (es.getD j default)))

/-- The four derived column values of row `i` of a frame whose raw rows
are `es` (src/Main.py lines 79-82). -/
def deriveAt (es : List Entry) (i : ℕ) : Derived :=
  { volumen := (es.getD i default).peso * (es.getD i default).repeticiones
    oneRM := epley (es.getD i default)
    intensidad := fdiv (es.getD i default).peso (groupMax es (es.getD i default).ejercicio)
    progreso := progresoAt es i }

/-- `calcular_metricas` (src/Main.py lines 75-83): an empty frame is
returned untouched; otherwise the four derived columns are assigned on
every row, each computed from the raw columns of the whole frame. -/
def calcular_metricas (df : List Row) : List Row :=
  if df.isEmpty then df
  else df.mapIdx (fun i r => { entry := r.entry, derived := some (deriveAt (df.map Row.entry) i) })

/-- A raw date cell of the CSV file, classified by how `pd.to_datetime`
treats its text: `missing` is an empty field (`pd.read_csv` reads it as
NaN), `valid d` is text that parses to the calendar date whose integer day
number is `d`, and `invalid` is text that `pd.to_datetime` cannot parse. -/
inductive DateCell where
  | missing : DateCell
  | valid : ℤ → DateCell
  | invalid : DateCell
deriving DecidableEq

/-- One record of the remote CSV file as `pd.read_csv` hands it to the
program, before the date column is decoded. -/
structure CsvRow where
  fecha : DateCell
  ejercicio : String
  peso : ℚ
  repeticiones : ℚ
  rpe : ℚ
  notas : String
deriving DecidableEq

/-- `pd.to_datetime` on a single cell: a missing cell becomes NaT (`none`),
a parseable cell becomes its date, an unparseable cell raises
(default `errors='raise'`). -/
def to_datetime_cell : DateCell → Except Unit (Option ℤ)
  | DateCell.missing => Except.ok none
  | DateCell.valid d => Except.ok (some d)
  | DateCell.invalid => Except.error ()

/-- `df['Fecha'] = pd.to_datetime(df['Fecha'])` (src/Main.py line 43) over
the whole column: the conversion raises as soon as any cell is
unparseable; otherwise every row keeps its decoded date (NaT for missing). -/
def to_datetime_col : List DateCell → Except Unit (List (Option ℤ))
  | [] => Except.ok []
  | c :: rest =>
    match to_datetime_cell c with
    | Except.error e => Except.error e
    | Except.ok d =>
      match to_datetime_col rest with
      | Except.error e => Except.error e
      | Except.ok ds => Except.ok (d :: ds)

/-- The body of the `try` block of `load_data_from_github`
(src/Main.py lines 37-44): fetching an absent path raises (modelled by
`store = none`), then the date column is decoded, which may itself raise;
on success the decoded frame is returned, with no derived columns. -/
def load_attempt (store : Option (List CsvRow)) : Except Unit (List Row) :=
  match store with
  | none => Except.error ()
  | some file =>
    match to_datetime_col (file.map CsvRow.fecha) with
    | Except.error e => Except.error e
    | Except.ok dates =>
      Except.ok ((file.zip dates).map (fun p =>
        { entry := { fecha := p.2, ejercicio := p.1.ejercicio, peso := p.1.peso,
                     repeticiones := p.1.repeticiones, rpe := p.1.rpe, notas := p.1.notas },
          derived := none }))

/-- `load_data_from_github` (src/Main.py lines 36-47): any exception of the
`try` block (absent path, parse failure) is caught, a warning is shown, and
a fresh empty frame with the six raw columns is returned. -/
def load_data_from_github (store : Option (List CsvRow)) : List Row :=
  match load_attempt store with
  | Except.ok df => df
  | Except.error _ => []

/-- One serialized CSV cell. The cell keeps the exact value it came from,
so that the columns written by `df.to_csv` can be compared precisely. -/
inductive Cell where
  | str : String → Cell
  | num : ℚ → Cell
  | date : Option ℤ → Cell
  | fv : FloatVal → Cell
deriving DecidableEq

/-- The six raw cells of a row, in the frame's column order. -/
def rawCells (e : Entry) : List Cell :=
  [Cell.date e.fecha, Cell.str e.ejercicio, Cell.num e.peso, Cell.num e.repeticiones,
   Cell.num e.rpe, Cell.str e.notas]

/-- All cells of a row: `df.to_csv` serializes every column the frame
actually has, so the four derived cells are included whenever the row
carries them. -/
def rowCells (r : Row) : List Cell :=
  rawCells r.entry ++
    (match r.derived with
     | none => []
     | some d => [Cell.num d.volumen, Cell.num d.oneRM, Cell.fv d.intensidad, Cell.fv d.progreso])

/-- `df.to_csv(index=False)` (src/Main.py line 53): one record per row,
every column of the frame serialized. -/
def to_csv (df : List Row) : List (List Cell) := df.map rowCells

/-- `save_data_to_github` (src/Main.py lines 49-72) against a remote store
modelled as `none` (path absent) or `some (content, rev)` (current blob and
revision). If the path exists the code refetches the blob and calls
`update_file` with the just-fetched `contents.sha` — the store's *current*
revision, not the revision the session loaded — so the update always
matches and replaces the content; otherwise `create_file` runs. The `Bool`
is the function's return value (`True` on success). -/
def save_data_to_github (store : Option (List (List Cell) × ℕ)) (df : List Row) :
    Option (List (List Cell) × ℕ) × Bool :=
  match store with
  | some (_, rev) => (some (to_csv df, rev + 1), true)
  | none => (some (to_csv df, 0), true)

/-- Number of columns of the session frame (`df.columns`): six raw columns,
plus the four derived ones when the rows carry them (they do exactly when
`calcular_metricas` ran on a nonempty frame). -/
def ncols (df : List Row) : ℕ :=
  6 + (match df.head? with
       | some r => (match r.derived with | some _ => 4 | none => 0)
       | none => 0)

/-- The form-submission block (src/Main.py lines 135-145):
`pd.DataFrame([[fecha, ejercicio, peso, reps, rpe, notas]], columns=df.columns)`
supplies six values; when the session frame has more than six columns the
constructor raises `ValueError`, otherwise the new raw row is appended. -/
def form_submit (df : List Row) (e : Entry) : Except String (List Row) :=
  if ncols df = 6 then Except.ok (df ++ [{ entry := e, derived := none }])
  else Except.error "ValueError: 6 values for 10 columns"

/-- Concrete entries of Scenario C of the spec: the 2024-01-01 Squat set,
with the date encoded as day number 1. -/
def squat1 : Entry :=
  { fecha := some 1, ejercicio := "Squat", peso := 100, repeticiones := 5,
    rpe := 7, notas := "" }

/-- The 2024-01-08 Squat set of Scenario C, one week later (day number 8). -/
def squat2 : Entry :=
  { fecha := some 8, ejercicio := "Squat", peso := 105, repeticiones := 5,
    rpe := 7, notas := "" }

/-- A freshly loaded row: raw columns only. -/
def rawRow (e : Entry) : Row := { entry := e, derived := none }

/-- The date value `pd.to_datetime` assigns to a cell it does not raise on:
NaT (`none`) for a missing cell, the date itself for a valid cell. The
`invalid` branch is arbitrary; it is only ever used under a hypothesis that
excludes invalid cells. -/
def decodedDate : DateCell → Option ℤ
  | DateCell.missing => none
  | DateCell.valid d => some d
  | DateCell.invalid => none

/-- Scenario C input: the two Squat sets in chronological input order. -/
def c6df : List Row := [rawRow squat1, rawRow squat2]

/-- The two Squat sets of Scenario C given in reverse chronological input
order: the 2024-01-08 set first, the 2024-01-01 set second. -/
def c3df : List Row := [rawRow squat2, rawRow squat1]

/-- A dataset whose single exercise group has every weight equal to 0. -/
def c7df : List Row :=
  [rawRow { fecha := some 1, ejercicio := "Squat", peso := 0, repeticiones := 5,
            rpe := 7, notas := "" },
   rawRow { fecha := some 8, ejercicio := "Squat", peso := 0, repeticiones := 8,
            rpe := 6, notas := "" }]

/-- A remote CSV file with one row whose date cell is missing. -/
def fileMissingDate : List CsvRow :=
  [{ fecha := DateCell.missing, ejercicio := "Squat", peso := 100, repeticiones := 5,
     rpe := 7, notas := "" }]

/-- A remote CSV file with a well-dated row followed by a row whose date
cell is unparseable. -/
def fileBadDate : List CsvRow :=
  [{ fecha := DateCell.valid 1, ejercicio := "Squat", peso := 100, repeticiones := 5,
     rpe := 7, notas := "" },
   { fecha := DateCell.invalid, ejercicio := "Squat", peso := 105, repeticiones := 5,
     rpe := 7, notas := "" }]

/-- The session dataframe after loading one raw row and deriving metrics,
as the main script does on startup (src/Main.py lines 112-113). -/
def dfLoaded : List Row := calcular_metricas [rawRow squat1]

/-!
General lemmas about the embedded operations.
-/

/-- `getD` through `mapIdx`, for an index inside the list. -/
theorem mapIdx_getD {α β : Type _} :
    ∀ (f : ℕ → α → β) (l : List α) (i : ℕ), i < l.length → ∀ (d : α) (db : β),
      (l.mapIdx f).getD i db = f i (l.getD i d) := by
  intro f l
  induction l generalizing f with
  | nil => intro i hi; simp at hi
  | cons a t ih =>
    intro i hi d db
    cases i with
    | zero => simp [List.mapIdx_cons]
    | succ n =>
      simp only [List.mapIdx_cons, List.getD_cons_succ]
      exact ih (fun i => f (i + 1)) n (by simpa using hi) d db

/-- Projecting away the indexed part of a `mapIdx` gives a plain `map`. -/
theorem mapIdx_map_proj {α β γ : Type _} (p : β → γ) (q : α → γ) :
    ∀ (l : List α) (f : ℕ → α → β), (∀ i a, p (f i a) = q a) →
      (l.mapIdx f).map p = l.map q := by
  intro l
  induction l with
  | nil => intro f h; rfl
  | cons a t ih =>
    intro f h
    simp only [List.mapIdx_cons, List.map_cons, h 0 a]
    rw [ih (fun i => f (i + 1)) (fun i a => h (i + 1) a)]

/-- Two `mapIdx` passes fuse into one. -/
theorem mapIdx_mapIdx {α β γ : Type _} :
    ∀ (l : List α) (f : ℕ → α → β) (g : ℕ → β → γ),
      (l.mapIdx f).mapIdx g = l.mapIdx (fun i a => g i (f i a)) := by
  intro l
  induction l with
  | nil => intro f g; rfl
  | cons a t ih =>
    intro f g
    simp only [List.mapIdx_cons]
    rw [ih]

/-- On a nonempty frame, `calcular_metricas` is the indexed map that
attaches the derived columns. -/
theorem calc_eq_mapIdx (df : List Row) (h : df ≠ []) :
    calcular_metricas df =
      df.mapIdx (fun i r =>
        { entry := r.entry, derived := some (deriveAt (df.map Row.entry) i) }) := by
  cases df with
  | nil => exact absurd rfl h
  | cons a t => rfl

/-- `calcular_metricas` keeps the raw rows (values, count and order). -/
theorem calc_entries (df : List Row) :
    (calcular_metricas df).map Row.entry = df.map Row.entry := by
  cases df with
  | nil => rfl
  | cons a t =>
    rw [calc_eq_mapIdx _ (by simp)]
    exact mapIdx_map_proj Row.entry Row.entry (a :: t) _ (fun i r => rfl)

/-- `calcular_metricas` keeps the number of rows. -/
theorem calc_length (df : List Row) : (calcular_metricas df).length = df.length := by
  have h := congrArg List.length (calc_entries df)
  simpa using h

/-- The row of index `i` of a derived frame. -/
theorem calc_getD (df : List Row) (i : ℕ) (hi : i < df.length) :
    (calcular_metricas df).getD i default =
      { entry := (df.getD i default).entry,
        derived := some (deriveAt (df.map Row.entry) i) } := by
  cases df with
  | nil => simp at hi
  | cons a t =>
    rw [calc_eq_mapIdx _ (by simp)]
    exact mapIdx_getD _ _ i hi default default

/-- `getD` through `map`, for an index inside the list. -/
theorem getD_map {α β : Type _} (f : α → β) (l : List α) (i : ℕ) (hi : i < l.length)
    (d : α) (db : β) : (l.map f).getD i db = f (l.getD i d) := by
  rw [List.getD_eq_getElem _ _ (by simpa using hi), List.getD_eq_getElem _ _ hi,
    List.getElem_map]

/-- The `getD 0` of the maximum of a list of zeros is zero. -/
theorem max_getD_zero (l : List ℚ) (h : ∀ x ∈ l, x = 0) : l.max?.getD 0 = 0 := by
  cases hm : l.max? with
  | none => rfl
  | some m =>
    have hmem : m ∈ l := List.max?_mem (fun a b => max_choice a b) hm
    simp [h m hmem]

/-- If every row of a group has weight 0, the group's maximum weight is 0. -/
theorem groupMax_zero (es : List Entry) (k : String)
    (h : ∀ e ∈ es, e.ejercicio = k → e.peso = 0) : groupMax es k = 0 := by
  apply max_getD_zero
  intro x hx
  obtain ⟨e, he, rfl⟩ := List.mem_map.mp hx
  have hf := List.mem_filter.mp he
  exact h e hf.1 (by simpa using hf.2)

/-- A row with no earlier row of the same key has no predecessor. -/
theorem prevSameIdx_none (keys : List String) (i : ℕ)
    (h : ∀ j, j < i → keys.getD j "" ≠ keys.getD i "") : prevSameIdx keys i = none := by
  unfold prevSameIdx
  have hnil : (List.range i).filter (fun j => keys.getD j "" = keys.getD i "") = [] := by
    rw [List.filter_eq_nil_iff]
    intro j hj
    simp only [List.mem_range] at hj
    simpa using h j hj
  rw [hnil]
  rfl

/-- Reading the filtered indices of `List.range i` back through `getD`
recovers the filtered prefix of the list itself. -/
theorem range_filter_map_getD {α : Type _} (p : α → Bool) (l : List α) (d : α) :
    ∀ i, i ≤ l.length →
      ((List.range i).filter (fun j => p (l.getD j d))).map (fun j => l.getD j d) =
        (l.take i).filter p := by
  intro i
  induction i with
  | zero => intro _; simp
  | succ n ih =>
    intro h
    have hn : n < l.length := h
    have hg : l.getD n d = l[n] := List.getD_eq_getElem l d hn
    rw [List.range_succ, List.filter_append, List.map_append, ih hn.le, List.take_succ,
      List.filter_append, List.getElem?_eq_getElem hn]
    congr 1
    simp only [List.filter_cons, List.filter_nil, Option.toList_some]
    rw [hg]
    by_cases hp : p l[n]
    · simp [hp, List.getElem?_eq_getElem hn]
    · simp [hp]

/-- The predecessor selected by `pct_change`, read back as an entry, is the
last same-exercise entry of the strict prefix before row `i`. -/
theorem prevSameIdx_spec (es : List Entry) (i : ℕ) (hi : i < es.length) :
    (prevSameIdx (es.map Entry.ejercicio) i).map (fun j => es.getD j default) =
      ((es.take i).filter (fun e => e.ejercicio = (es.getD i default).ejercicio)).getLast? := by
  unfold prevSameIdx
  have hcong : ∀ j ∈ List.range i,
      (decide ((es.map Entry.ejercicio).getD j "" = (es.map Entry.ejercicio).getD i "")) =
        (decide ((es.getD j default).ejercicio = (es.getD i default).ejercicio)) := by
    intro j hj
    have hj' : j < es.length := lt_trans (List.mem_range.mp hj) hi
    rw [getD_map Entry.ejercicio es j hj' default "", getD_map Entry.ejercicio es i hi default ""]
  rw [List.filter_congr hcong, ← List.getLast?_map,
    range_filter_map_getD (fun e => e.ejercicio = (es.getD i default).ejercicio) es default i hi.le]

/-- An unparseable cell anywhere in the column makes the conversion raise. -/
theorem to_datetime_col_error (cs : List DateCell) (h : DateCell.invalid ∈ cs) :
    to_datetime_col cs = Except.error () := by
  induction cs with
  | nil => simp at h
  | cons c rest ih =>
    rcases List.mem_cons.mp h with hc | hc
    · rw [← hc]
      rfl
    · cases c with
      | missing => simp [to_datetime_col, to_datetime_cell, ih hc]
      | valid d => simp [to_datetime_col, to_datetime_cell, ih hc]
      | invalid => rfl

/-- With no unparseable cell, the conversion succeeds and decodes every
cell in place. -/
theorem to_datetime_col_ok (cs : List DateCell) (h : DateCell.invalid ∉ cs) :
    to_datetime_col cs = Except.ok (cs.map decodedDate) := by
  induction cs with
  | nil => rfl
  | cons c rest ih =>
    have hc : c ≠ DateCell.invalid := fun hh => h (hh ▸ List.mem_cons_self c rest)
    have hrest : DateCell.invalid ∉ rest := fun hh => h (List.mem_cons_of_mem c hh)
    cases c with
    | missing => simp [to_datetime_col, to_datetime_cell, ih hrest, decodedDate]
    | valid d => simp [to_datetime_col, to_datetime_cell, ih hrest, decodedDate]
    | invalid => exact absurd rfl hc

/-!
Claim theorems.
-/

/-- C5: when the remote path does not exist, the fetch inside the `try`
block raises `NotFound`, the handler catches it, and the caller receives
the empty dataset (there is no revision value in sight); no error
propagates out of `load_data_from_github`. -/
theorem C5_absent_path_empty :
    load_attempt none = Except.error () ∧ load_data_from_github none = [] :=
  ⟨rfl, rfl⟩

/-- C6: on Scenario C's two Squat entries (100 kg x 5 on 2024-01-01, then
105 kg x 5 on 2024-01-08, in chronological input order), the derived 1RM
values are exactly 350/3 (about 116.67) and 245/2 (= 122.5), and the
second entry's progress is exactly 5 percent (the first has the NaN
sentinel, having no predecessor). -/
theorem C6_scenario_c :
    (calcular_metricas c6df).map (fun r => r.derived.map Derived.oneRM) =
        [some (350 / 3), some (245 / 2)] ∧
      (calcular_metricas c6df).map (fun r => r.derived.map Derived.progreso) =
        [some FloatVal.nan, some (FloatVal.fin 5)] := by
  with_unfolding_all decide

/-- C7: if every row of some exercise group has weight 0 (so the group
maximum is 0), every row of that group gets intensity `0/0`, the NaN
sentinel; the total function `fdiv` models that no exception is raised. -/
theorem C7_zero_weight_group (df : List Row) (i : ℕ) (hi : i < df.length)
    (h0 : ∀ r ∈ df, r.entry.ejercicio = (df.getD i default).entry.ejercicio →
      r.entry.peso = 0) :
    ((calcular_metricas df).getD i default).derived.map Derived.intensidad =
      some FloatVal.nan := by
  rw [calc_getD df i hi]
  show some (fdiv ((df.map Row.entry).getD i default).peso
    (groupMax (df.map Row.entry) (((df.map Row.entry).getD i default).ejercicio))) =
    some FloatVal.nan
  have hme : (df.map Row.entry).getD i default = (df.getD i default).entry :=
    getD_map Row.entry df i hi default default
  have hmem : df.getD i default ∈ df := by
    rw [List.getD_eq_getElem df default hi]
    exact List.getElem_mem hi
  have hpeso : (df.getD i default).entry.peso = 0 := h0 _ hmem rfl
  have hmax : groupMax (df.map Row.entry) (((df.map Row.entry).getD i default).ejercicio) = 0 := by
    apply groupMax_zero
    intro e he hk
    obtain ⟨r, hr, rfl⟩ := List.mem_map.mp he
    exact h0 r hr (by rwa [hme] at hk)
  rw [hmax, hme, hpeso]
  simp [fdiv]

/-- Witness for C7 at a concrete two-row, all-zero-weight Squat dataset. -/
theorem C7_zero_weight_group_witness :
    ((calcular_metricas c7df).getD 0 default).derived.map Derived.intensidad =
      some FloatVal.nan :=
  C7_zero_weight_group c7df 0 (by with_unfolding_all decide) (by with_unfolding_all decide)

/-- C9: `calcular_metricas` is idempotent, in the strong form: a second
run returns the very same frame, raw columns and derived columns alike,
because the derived columns are recomputed from the unchanged raw rows. -/
theorem C9_derive_idempotent (df : List Row) :
    calcular_metricas (calcular_metricas df) = calcular_metricas df := by
  cases df with
  | nil => rfl
  | cons a t =>
    rw [calc_eq_mapIdx (a :: t) (by simp)]
    have hne : (a :: t).mapIdx (fun i r =>
        ({ entry := r.entry,
           derived := some (deriveAt ((a :: t).map Row.entry) i) } : Row)) ≠ [] := by
      simp [List.mapIdx_cons]
    have hent : (List.mapIdx (fun i r =>
        ({ entry := r.entry,
           derived := some (deriveAt ((a :: t).map Row.entry) i) } : Row)) (a :: t)).map
          Row.entry = (a :: t).map Row.entry :=
      mapIdx_map_proj Row.entry Row.entry (a :: t) _ (fun i r => rfl)
    rw [calc_eq_mapIdx _ hne, mapIdx_mapIdx, hent]

/-- C10: the only effect of `calcular_metricas` on the frame is to set the
four derived columns: the raw rows are returned unchanged, in the same
number and order, and each row of a (necessarily nonempty) derived frame
carries exactly the derived values computed from the raw rows. -/
theorem C10_frame_effect (df : List Row) :
    (calcular_metricas df).map Row.entry = df.map Row.entry ∧
      ∀ i, i < (calcular_metricas df).length →
        ((calcular_metricas df).getD i default).derived =
          some (deriveAt (df.map Row.entry) i) := by
  refine ⟨calc_entries df, fun i hi => ?_⟩
  have hlen : i < df.length := by rwa [calc_length df] at hi
  rw [calc_getD df i hlen]

/-- Witness for C10 at the Scenario C dataset and row 0. -/
theorem C10_frame_effect_witness :
    (calcular_metricas c6df).map Row.entry = c6df.map Row.entry ∧
      ((calcular_metricas c6df).getD 0 default).derived =
        some (deriveAt (c6df.map Row.entry) 0) :=
  ⟨(C10_frame_effect c6df).1, (C10_frame_effect c6df).2 0 (by with_unfolding_all decide)⟩

/-- C1 counterexample (Scenario B): both sessions load at revision 0;
session 1 saves its frame, advancing the store to revision 1; session 2,
whose loaded revision 0 is now stale, saves its own frame — the call
succeeds (returns `True`, not a `Conflict` result), and the remote content
becomes session 2's serialization, overwriting session 1's data. -/
theorem C1_counterexample :
    (save_data_to_github (some (to_csv [rawRow squat1], 1)) [rawRow squat2]).2 = true ∧
      (save_data_to_github (some (to_csv [rawRow squat1], 1)) [rawRow squat2]).1 =
        some (to_csv [rawRow squat2], 2) ∧
      to_csv [rawRow squat2] ≠ to_csv [rawRow squat1] := by
  with_unfolding_all decide

/-- C1 (amended): `save_data_to_github` takes no expected revision and
performs no staleness check: it refetches the current blob identity at
save time, always succeeds, and replaces the remote content with the
caller's frame. Of two sequential saves the second always wins, whatever
either session had loaded; no `Conflict` result exists. -/
theorem C1_save_always_overwrites (store : Option (List (List Cell) × ℕ))
    (df1 df2 : List Row) :
    (save_data_to_github (save_data_to_github store df1).1 df2).2 = true ∧
      ∃ rev, (save_data_to_github (save_data_to_github store df1).1 df2).1 =
        some (to_csv df2, rev) := by
  cases store with
  | none => exact ⟨rfl, 1, rfl⟩
  | some c =>
    obtain ⟨content, rev⟩ := c
    exact ⟨rfl, rev + 2, rfl⟩

/-- C2: the code violates the only-raw-columns rule. After a session loads
one raw row, the script derives metrics in place (src/Main.py line 113),
leaving a 10-column frame; `df.to_csv` serializes all 10 columns,
`Volumen`, `1RM`, `Intensidad` and `Progreso` included, and the submission
block raises a `ValueError` (6 values against 10 column names) before any
save of such a session can happen. Only a session that started from an
empty dataset writes a 6-column file. -/
theorem C2_derived_columns_serialized :
    (to_csv dfLoaded).map List.length = [10] ∧
      (to_csv dfLoaded).getD 0 [] =
        rawCells squat1 ++ [Cell.num 500, Cell.num (350 / 3), Cell.fv (FloatVal.fin 1),
          Cell.fv FloatVal.nan] ∧
      form_submit dfLoaded squat2 = Except.error "ValueError: 6 values for 10 columns" ∧
      (to_csv [rawRow squat1]).map List.length = [6] := by
  with_unfolding_all decide

/-- C3 counterexample: with the two Scenario C Squat sets given in reverse
chronological input order, the later-dated set (row 0) gets the NaN
sentinel and the chronologically earlier set (row 1) gets -100/21 percent;
computing within each group sorted by date ascending, as the claim states,
would instead give the later-dated set +5 percent and the earlier one NaN. -/
theorem C3_counterexample :
    c3df.map (fun r => r.entry.fecha) = [some 8, some 1] ∧
      c3df.map (fun r => r.entry.ejercicio) = ["Squat", "Squat"] ∧
      (calcular_metricas c3df).map (fun r => r.derived.map Derived.progreso) =
        [some FloatVal.nan, some (FloatVal.fin (-100 / 21))] ∧
      (calcular_metricas c3df).map (fun r => r.derived.map Derived.progreso) ≠
        [some (FloatVal.fin 5), some FloatVal.nan] := by
  with_unfolding_all decide

/-- C3 (amended): the progress of row `i` is the percent change of the
Epley 1RM against the last previous row of the same exercise in input row
order — no sorting by date takes place; a row with no such previous row
gets the NaN sentinel. -/
theorem C3_progress_input_order (df : List Row) (i : ℕ) (hi : i < df.length) :
    ((calcular_metricas df).getD i default).derived.map Derived.progreso =
      some (match (((df.map Row.entry).take i).filter
              (fun e => e.ejercicio = ((df.map Row.entry).getD i default).ejercicio)).getLast? with
            | none => FloatVal.nan
            | some p =>
                fmul100 (fdiv (epley ((df.map Row.entry).getD i default) - epley p)
                  (epley p))) := by
  rw [calc_getD df i hi]
  show some (progresoAt (df.map Row.entry) i) = _
  have hlen : i < (df.map Row.entry).length := by simpa using hi
  have hspec := prevSameIdx_spec (df.map Row.entry) i hlen
  unfold progresoAt
  cases hp : prevSameIdx ((df.map Row.entry).map Entry.ejercicio) i with
  | none =>
    rw [hp] at hspec
    simp only [Option.map_none'] at hspec
    rw [← hspec]
  | some j =>
    rw [hp] at hspec
    simp only [Option.map_some'] at hspec
    rw [← hspec]

/-- Witness for the amended C3 at the reversed Scenario C input, row 1. -/
theorem C3_progress_input_order_witness :
    ((calcular_metricas c3df).getD 1 default).derived.map Derived.progreso =
      some (match (((c3df.map Row.entry).take 1).filter
              (fun e => e.ejercicio = ((c3df.map Row.entry).getD 1 default).ejercicio)).getLast? with
            | none => FloatVal.nan
            | some p =>
                fmul100 (fdiv (epley ((c3df.map Row.entry).getD 1 default) - epley p)
                  (epley p))) :=
  C3_progress_input_order c3df 1 (by with_unfolding_all decide)

/-- C4 counterexample: a row whose date cell is missing is kept with a NaT
date — not today's date, not any date at all — and a file containing one
unparseable date loads as the empty dataset: both of its rows, the
well-dated one included, are dropped. -/
theorem C4_counterexample :
    (load_data_from_github (some fileMissingDate)).map (fun r => r.entry.fecha) = [none] ∧
      fileBadDate.length = 2 ∧ load_data_from_github (some fileBadDate) = [] := by
  with_unfolding_all decide

/-- C4 (amended): the decode never coerces a date to "now": rows with
missing dates are kept with NaT dates, and one unparseable date cell makes
`pd.to_datetime` raise, upon which the handler returns a fresh empty frame
— every row of the file is dropped (behind a visible warning). -/
theorem C4_date_decode (file : List CsvRow) :
    ((∃ c ∈ file, c.fecha = DateCell.invalid) → load_data_from_github (some file) = []) ∧
      ((∀ c ∈ file, c.fecha ≠ DateCell.invalid) →
        (load_data_from_github (some file)).map (fun r => r.entry.fecha) =
          file.map (fun c => decodedDate c.fecha)) := by
  constructor
  · rintro ⟨c, hc, hf⟩
    have hmem : DateCell.invalid ∈ file.map CsvRow.fecha :=
      List.mem_map.mpr ⟨c, hc, hf⟩
    have hcol : to_datetime_col (file.map CsvRow.fecha) = Except.error () :=
      to_datetime_col_error _ hmem
    simp [load_data_from_github, load_attempt, hcol]
  · intro hall
    have hnot : DateCell.invalid ∉ file.map CsvRow.fecha := by
      intro hmem
      obtain ⟨c, hc, hf⟩ := List.mem_map.mp hmem
      exact hall c hc hf
    have hcol : to_datetime_col (file.map CsvRow.fecha) =
        Except.ok ((file.map CsvRow.fecha).map decodedDate) :=
      to_datetime_col_ok _ hnot
    have hload : load_data_from_github (some file) =
        (file.zip ((file.map CsvRow.fecha).map decodedDate)).map (fun p =>
          ({ entry := { fecha := p.2, ejercicio := p.1.ejercicio, peso := p.1.peso,
                        repeticiones := p.1.repeticiones, rpe := p.1.rpe, notas := p.1.notas },
             derived := none } : Row)) := by
      simp [load_data_from_github, load_attempt, hcol]
    rw [hload, List.map_map]
    show (file.zip ((file.map CsvRow.fecha).map decodedDate)).map Prod.snd = _
    rw [List.map_snd_zip _ _ (by simp), List.map_map]
    rfl

/-- Witness for the amended C4 at the two concrete files. -/
theorem C4_date_decode_witness :
    load_data_from_github (some fileBadDate) = [] ∧
      (load_data_from_github (some fileMissingDate)).map (fun r => r.entry.fecha) =
        fileMissingDate.map (fun c => decodedDate c.fecha) :=
  ⟨(C4_date_decode fileBadDate).1
      ⟨{ fecha := DateCell.invalid, ejercicio := "Squat", peso := 105, repeticiones := 5,
         rpe := 7, notas := "" }, by with_unfolding_all decide, rfl⟩,
    (C4_date_decode fileMissingDate).2 (by with_unfolding_all decide)⟩

/-- C8 counterexample: in the reversed Scenario C input, row 1 is the
chronologically first Squat entry (day 1 against day 8), yet its progress
is the number -100/21 percent, not the NaN sentinel: `pct_change` works in
input row order, not chronological order. -/
theorem C8_counterexample :
    c3df.map (fun r => (r.entry.fecha, r.entry.ejercicio)) =
        [(some 8, "Squat"), (some 1, "Squat")] ∧
      (1 : ℤ) < 8 ∧
      ((calcular_metricas c3df).getD 1 default).derived.map Derived.progreso =
        some (FloatVal.fin (-100 / 21)) ∧
      FloatVal.fin (-100 / 21) ≠ FloatVal.nan := by
  with_unfolding_all decide

/-- C8 (amended): the first row of each exercise group in input row order —
in particular the sole row of a single-row group — receives the NaN
sentinel as its progress, never a number. -/
theorem C8_first_of_group_nan (df : List Row) (i : ℕ) (hi : i < df.length)
    (hfirst : ∀ j, j < i →
      (df.getD j default).entry.ejercicio ≠ (df.getD i default).entry.ejercicio) :
    ((calcular_metricas df).getD i default).derived.map Derived.progreso =
      some FloatVal.nan := by
  rw [calc_getD df i hi]
  show some (progresoAt (df.map Row.entry) i) = some FloatVal.nan
  have hnone : prevSameIdx ((df.map Row.entry).map Entry.ejercicio) i = none := by
    apply prevSameIdx_none
    intro j hj
    have hj' : j < df.length := hj.trans hi
    have h1 : ((df.map Row.entry).map Entry.ejercicio).getD j "" =
        (df.getD j default).entry.ejercicio := by
      rw [getD_map Entry.ejercicio (df.map Row.entry) j (by simpa using hj') default "",
        getD_map Row.entry df j hj' default default]
    have h2 : ((df.map Row.entry).map Entry.ejercicio).getD i "" =
        (df.getD i default).entry.ejercicio := by
      rw [getD_map Entry.ejercicio (df.map Row.entry) i (by simpa using hi) default "",
        getD_map Row.entry df i hi default default]
    rw [h1, h2]
    exact hfirst j hj
  unfold progresoAt
  rw [hnone]

/-- Witness for the amended C8: the sole row of a single-row dataset gets
the NaN sentinel as progress. -/
theorem C8_first_of_group_nan_witness :
    ((calcular_metricas [rawRow squat1]).getD 0 default).derived.map Derived.progreso =
      some FloatVal.nan :=
  C8_first_of_group_nan [rawRow squat1] 0 (by with_unfolding_all decide)
    (fun j hj => absurd hj (Nat.not_lt_zero j))
